import Mathlib

/-!
Shallow embedding of the `leakung/dmarc-report` ingestion pipeline
(`src/fetcher/imap_fetcher.py` and `src/manual_import.py`) and proofs about it.

The embedding mirrors, statement by statement:
  * `DMARCParser.parse_xml` / `DMARCParser._get_text` (XML normalisation),
  * `IMAPFetcher.extract_xml_from_attachment` and
    `ManualImporter.extract_xml_from_file` (container extraction),
  * `DatabaseManager.store_report`, `mark_email_processed`,
    `is_email_processed` (transactional persistence),
  * the per-email attachment loop of `IMAPFetcher.fetch_reports` and
    `ManualImporter.import_file` (orchestration).

Python exceptions are modelled with `Except`; the database transaction is
modelled by staging all writes and making them visible only at `commit`,
with `rollback` restoring the pre-call state.  Failure injection for the
store is an oracle `failAt : Option Nat` naming which SQL statement (by
execution order within the call) raises.
-/

namespace DmarcReport

/-- An `xml.etree.ElementTree` element: a tag, optional text, and children.
`text = none` models both a self-closing element and `<t></t>` (ElementTree
gives `text = None` for both). -/
inductive XML where
  | elem (tag : String) (text : Option String) (children : List XML)

def XML.tag : XML → String
  | .elem t _ _ => t

def XML.text : XML → Option String
  | .elem _ t _ => t

def XML.children : XML → List XML
  | .elem _ _ c => c

/-- Model of `element.find(tag)`: first direct child with the given tag, else `None`. -/
def XML.findTag (e : XML) (t : String) : Option XML :=
  e.children.find? (fun c => c.tag = t)

/-- Model of `element.findall(tag)`: all direct children with the given tag. -/
def XML.findallTag (e : XML) (t : String) : List XML :=
  e.children.filter (fun c => c.tag = t)

/-- Python truthiness of an ElementTree element: an element is falsy iff it
has no children (`len(elem) == 0`); `None` is falsy. -/
def xmlTruthy : Option XML → Bool
  | none => false
  | some e => !e.children.isEmpty

/-- Model of `DMARCParser._get_text(element, tag, default)`: returns `default` when the
element is `None`, the child is absent, or the child's text is `None`/empty
(the code tests `child.text` for truthiness). -/
def get_text (element : Option XML) (tag : String) (dflt : String := "") : String :=
  match element with
  | none => dflt
  | some e =>
    match e.findTag tag with
    | none => dflt
    | some child =>
      match child.text with
      | none => dflt
      | some t => if t = "" then dflt else t

/-- Python `str.endswith(suffix)`, over the character list (the library
`String.endsWith` does not reduce in the kernel). -/
def strEndsWith (s suffix : String) : Bool :=
  s.data.drop (s.data.length - suffix.data.length) == suffix.data

/-- ASCII whitespace, as stripped by Python `int()`. -/
def isWS (c : Char) : Bool :=
  c = ' ' || c = '\t' || c = '\n' || c = '\r'

/-- Strip leading and trailing whitespace from a character list. -/
def trimChars (l : List Char) : List Char :=
  ((l.dropWhile isWS).reverse.dropWhile isWS).reverse

/-- Decimal digit run to `Nat` (the list is known to be all digits). -/
def digitsToNat (l : List Char) : Nat :=
  l.foldl (fun n c => n * 10 + (c.toNat - 48)) 0

/-- Python `int(s)` on a decimal string: strips surrounding whitespace,
allows one optional sign, then requires a nonempty digit run; anything else
raises `ValueError` (modelled as `none`).  (Underscore separators and
non-ASCII digits are not modelled; no input in this development uses them.) -/
def pyInt (s : String) : Option Int :=
  match trimChars s.data with
  | [] => none
  | c :: rest =>
    let signed : Bool × List Char :=
      if c = '-' then (true, rest)
      else if c = '+' then (false, rest)
      else (false, c :: rest)
    if signed.2.isEmpty then none
    else if signed.2.all Char.isDigit then
      some (if signed.1 then -(digitsToNat signed.2 : Int)
            else (digitsToNat signed.2 : Int))
    else none

/-- The exceptions `parse_xml` can raise (all caught, logged and re-raised by
its generic handler). `attributeError` is `.find` called on `None`;
`valueError` is `int()` on a non-numeric string; `xmlSyntaxError` is
`ET.fromstring` failing on the raw bytes. -/
inductive ParseError where
  | attributeError
  | valueError
  | xmlSyntaxError
deriving Repr, DecidableEq

/-- One entry of the `dkim_auths` list built by `parse_xml`. -/
structure DKIMAuth where
  domain : String
  selector : String
  result : String
  human_result : String
deriving Repr, DecidableEq

/-- One entry of the `spf_auths` list built by `parse_xml`. -/
structure SPFAuth where
  domain : String
  scope : String
  result : String
deriving Repr, DecidableEq

/-- The per-`record` dictionary built by `parse_xml`.  The `dkim_auths` /
`spf_auths` keys are only set when the `auth_results` element is truthy;
`none` models the absent key (read back with `.get(key, [])`). -/
structure RecordData where
  source_ip : String
  count : Int
  disposition : String
  dkim_result : String
  spf_result : String
  header_from : String
  envelope_from : String
  envelope_to : String
  dkim_auths : Option (List DKIMAuth)
  spf_auths : Option (List SPFAuth)

/-- The report dictionary built by `parse_xml`.  `raw_xml` keeps the parsed
payload verbatim (the code stores the decoded source string; the tree stands
in for it here). -/
structure ReportData where
  org_name : String
  email : String
  extra_contact_info : String
  report_id : String
  date_range_begin : Int
  date_range_end : Int
  domain : String
  adkim : String
  aspf : String
  p : String
  sp : String
  pct : Int
  raw_xml : XML
  records : List RecordData

/-- Lines 75–125 of `parse_xml`, for one `record` element.  Statement order
matters: `source_ip` and `count` are read through `_get_text` (which tolerates
a missing `row`), but `row.find('policy_evaluated')` then raises
`AttributeError` when `row` is `None`. -/
def parse_record (record : XML) : Except ParseError RecordData := do
  let row := record.findTag "row"
  let source_ip := get_text row "source_ip"
  let count ← match pyInt (get_text row "count" "0") with
    | none => .error .valueError
    | some n => .ok n
  let r ← match row with
    | none => .error .attributeError
    | some r => .ok r
  let policy_evaluated := r.findTag "policy_evaluated"
  let disposition := get_text policy_evaluated "disposition"
  let dkim_result := get_text policy_evaluated "dkim"
  let spf_result := get_text policy_evaluated "spf"
  let identifiers := record.findTag "identifiers"
  let header_from := get_text identifiers "header_from"
  let envelope_from := get_text identifiers "envelope_from" header_from
  let envelope_to := get_text identifiers "envelope_to" ""
  let auth_results := record.findTag "auth_results"
  if xmlTruthy auth_results then
    let ar := auth_results.getD (XML.elem "" none [])
    let dkim_auths := (ar.findallTag "dkim").map (fun d =>
      { domain := get_text (some d) "domain"
        selector := get_text (some d) "selector"
        result := get_text (some d) "result"
        human_result := get_text (some d) "human_result" "" : DKIMAuth })
    let spf_auths := (ar.findallTag "spf").map (fun s =>
      { domain := get_text (some s) "domain"
        scope := get_text (some s) "scope" "mfrom"
        result := get_text (some s) "result" : SPFAuth })
    return { source_ip, count, disposition, dkim_result, spf_result,
             header_from, envelope_from, envelope_to,
             dkim_auths := some dkim_auths, spf_auths := some spf_auths }
  else
    return { source_ip, count, disposition, dkim_result, spf_result,
             header_from, envelope_from, envelope_to,
             dkim_auths := none, spf_auths := none }

/-- The `for record in root.findall('record')` loop: each element is parsed
in order and appended; the first failure aborts the whole parse. -/
def parse_records : List XML → Except ParseError (List RecordData)
  | [] => .ok []
  | r :: rs => do
    let d ← parse_record r
    let ds ← parse_records rs
    .ok (d :: ds)

/-- Model of `DMARCParser.parse_xml` on an already-parsed element tree (the
`ET.fromstring` step lives in `parse_xml_bytes` below).  Mirrors lines 35–128:
metadata fields via `_get_text` (tolerant of a missing `report_metadata`),
then `report_metadata.find('date_range')` which raises when `report_metadata`
is `None`, epoch-second conversion of the date-range bounds via `int()`,
policy-published fields with their defaults, `int()` of `pct`, and the record
loop. -/
def parse_xml (root : XML) : Except ParseError ReportData := do
  let report_metadata := root.findTag "report_metadata"
  let org_name := get_text report_metadata "org_name"
  let email := get_text report_metadata "email"
  let extra_contact := get_text report_metadata "extra_contact_info"
  let report_id := get_text report_metadata "report_id"
  let rm ← match report_metadata with
    | none => .error .attributeError
    | some rm => .ok rm
  let date_range := rm.findTag "date_range"
  let date_range_begin ← match pyInt (get_text date_range "begin") with
    | none => .error .valueError
    | some n => .ok n
  let date_range_end ← match pyInt (get_text date_range "end") with
    | none => .error .valueError
    | some n => .ok n
  let policy_pub := root.findTag "policy_published"
  let domain := get_text policy_pub "domain"
  let adkim := get_text policy_pub "adkim" "r"
  let aspf := get_text policy_pub "aspf" "r"
  let p := get_text policy_pub "p"
  let sp := get_text policy_pub "sp" p
  let pct ← match pyInt (get_text policy_pub "pct" "100") with
    | none => .error .valueError
    | some n => .ok n
  let records ← parse_records (root.findallTag "record")
  return { org_name, email, extra_contact_info := extra_contact, report_id,
           date_range_begin, date_range_end, domain, adkim, aspf, p, sp, pct,
           raw_xml := root, records }

/-! ## Container extraction -/

/-- Opaque attachment/file bytes, described by what the byte-level libraries
do on them: `zipOf es` is a payload `zipfile` opens as the named entries;
`gzipOf b` is a payload `gzip.decompress` yields `b` from; `xmlBytes x` is a
payload `ET.fromstring` parses to `x`; `garbage` makes every such operation
raise. -/
inductive Bytes where
  | zipOf (entries : List (String × Bytes))
  | gzipOf (inner : Bytes)
  | xmlBytes (x : XML)
  | garbage

/-- Model of `zipfile.ZipFile(...)` on the payload: the entry list, or an exception. -/
def unzip : Bytes → Option (List (String × Bytes))
  | .zipOf es => some es
  | _ => none

/-- Model of `gzip.decompress` on the payload: the stream, or an exception. -/
def gunzip : Bytes → Option Bytes
  | .gzipOf b => some b
  | _ => none

/-- Model of `ET.fromstring` on the payload: the element tree, or `ParseError`. -/
def etFromstring : Bytes → Option XML
  | .xmlBytes x => some x
  | _ => none

/-- An email MIME part as `IMAPFetcher.fetch_reports` sees it. -/
structure Part where
  filename : Option String
  content_maintype : String
  content_disposition : Option String
  payload : Bytes

/-- Model of `IMAPFetcher.extract_xml_from_attachment` (lines 283–314): dispatch on
the filename suffix.  For `.zip` the loop `for name in zf.namelist(): if
name.endswith('.xml'): return zf.read(name)` returns the FIRST `.xml` entry
only; falling out of the loop (or any extraction error) reaches `return
None`.  For `.gz` a failed decompress returns `None`; `.xml` returns the
payload unchanged; other suffixes and filename-less parts return `None`. -/
def extract_xml_from_attachment (part : Part) : Option Bytes :=
  match part.filename with
  | none => none
  | some filename =>
    let content := part.payload
    if strEndsWith filename ".zip" then
      match unzip content with
      | none => none
      | some entries =>
        match entries.find? (fun e => strEndsWith e.1 ".xml") with
        | some e => some e.2
        | none => none
    else if strEndsWith filename ".gz" then
      gunzip content
    else if strEndsWith filename ".xml" then
      some content
    else
      none

/-- Model of `ManualImporter.extract_xml_from_file` (manual_import.py lines 37–79):
same dispatch, but the `.zip` branch collects EVERY `.xml` entry; every
failure branch returns the empty list. -/
def extract_xml_from_file (filepath : String) (content : Bytes) : List Bytes :=
  if strEndsWith filepath ".zip" then
    match unzip content with
    | none => []
    | some entries =>
      let xml_files := entries.filter (fun e => strEndsWith e.1 ".xml")
      xml_files.map (fun e => e.2)
  else if strEndsWith filepath ".gz" then
    match gunzip content with
    | none => []
    | some b => [b]
  else if strEndsWith filepath ".xml" then
    [content]
  else
    []

/-- Model of `parse_xml` on raw bytes: `ET.fromstring` then the tree-level parse. -/
def parse_xml_bytes (b : Bytes) : Except ParseError ReportData :=
  match etFromstring b with
  | none => .error .xmlSyntaxError
  | some root => parse_xml root

/-! ## Database model and `DatabaseManager`

The five tables of the persisted schema, plus the serial-id counter that
stands in for the `RETURNING id` surrogate keys. -/

/-- A row of `reports`. -/
structure ReportRow where
  id : Nat
  org_name : String
  email : String
  extra_contact_info : String
  report_id : String
  date_range_begin : Int
  date_range_end : Int
  domain : String
  adkim : String
  aspf : String
  p : String
  sp : String
  pct : Int
  raw_xml : XML

/-- A row of `records`. -/
structure RecordRow where
  id : Nat
  report_fk : Nat
  source_ip : String
  count : Int
  disposition : String
  dkim_result : String
  spf_result : String
  header_from : String
  envelope_from : String
  envelope_to : String

/-- A row of `dkim_auth`. -/
structure DkimRow where
  record_fk : Nat
  domain : String
  selector : String
  result : String
  human_result : String

/-- A row of `spf_auth`. -/
structure SpfRow where
  record_fk : Nat
  domain : String
  selector_scope : String
  result : String

/-- A row of `processed_emails`. -/
structure ProcRow where
  message_id : String
  subject : String
  source : String

/-- The database state. `next_id` feeds the serial `id` columns. -/
structure DB where
  reports : List ReportRow
  records : List RecordRow
  dkim_auth : List DkimRow
  spf_auth : List SpfRow
  processed_emails : List ProcRow
  next_id : Nat

def DB.empty : DB :=
  { reports := [], records := [], dkim_auth := [], spf_auth := [],
    processed_emails := [], next_id := 1 }

/-- The row the `reports` INSERT of `store_report` produces. -/
def mkReportRow (repId : Nat) (r : ReportData) : ReportRow :=
  { id := repId, org_name := r.org_name, email := r.email,
    extra_contact_info := r.extra_contact_info, report_id := r.report_id,
    date_range_begin := r.date_range_begin, date_range_end := r.date_range_end,
    domain := r.domain, adkim := r.adkim, aspf := r.aspf, p := r.p,
    sp := r.sp, pct := r.pct, raw_xml := r.raw_xml }

/-- Outcome of `store_report`: `True` (report inserted and committed),
`False` (already exists, skipped), or an exception propagated to the caller
after rollback. -/
inductive StoreOutcome where
  | inserted
  | alreadyExists
  | storeError
deriving Repr, DecidableEq

/-- The `dkim_auth` insert loop of `store_report` (lines 203–211), run inside
the open transaction.  `failAt` is the index of the SQL statement fated to
raise; `ctr` counts statements executed so far in this `store_report` call. -/
def insertDkims (failAt : Option Nat) (recId : Nat) :
    List DKIMAuth → DB × Nat → Except Unit (DB × Nat)
  | [], st => .ok st
  | d :: ds, (db, ctr) =>
    if failAt = some ctr then .error () else
    insertDkims failAt recId ds
      ({ db with dkim_auth := db.dkim_auth ++
          [{ record_fk := recId, domain := d.domain, selector := d.selector,
             result := d.result, human_result := d.human_result }] }, ctr + 1)

/-- The `spf_auth` insert loop of `store_report` (lines 214–219). -/
def insertSpfs (failAt : Option Nat) (recId : Nat) :
    List SPFAuth → DB × Nat → Except Unit (DB × Nat)
  | [], st => .ok st
  | s :: ss, (db, ctr) =>
    if failAt = some ctr then .error () else
    insertSpfs failAt recId ss
      ({ db with spf_auth := db.spf_auth ++
          [{ record_fk := recId, domain := s.domain, selector_scope := s.scope,
             result := s.result }] }, ctr + 1)

/-- The row the `records` INSERT of `store_report` produces. -/
def mkRecordRow (recId repId : Nat) (r : RecordData) : RecordRow :=
  { id := recId, report_fk := repId, source_ip := r.source_ip,
    count := r.count, disposition := r.disposition,
    dkim_result := r.dkim_result, spf_result := r.spf_result,
    header_from := r.header_from, envelope_from := r.envelope_from,
    envelope_to := r.envelope_to }

/-- The `records` insert loop of `store_report` (lines 184–219): insert the
record row, then its DKIM and SPF auth rows (`record.get('dkim_auths', [])`
reads `[]` when the key was never set). -/
def insertRecords (failAt : Option Nat) (repId : Nat) :
    List RecordData → DB × Nat → Except Unit (DB × Nat)
  | [], st => .ok st
  | r :: rs, (db, ctr) =>
    if failAt = some ctr then .error () else
    match insertDkims failAt db.next_id (r.dkim_auths.getD [])
        ({ db with
           records := db.records ++ [mkRecordRow db.next_id repId r],
           next_id := db.next_id + 1 }, ctr + 1) with
    | .error e => .error e
    | .ok st1 =>
      match insertSpfs failAt db.next_id (r.spf_auths.getD []) st1 with
      | .error e => .error e
      | .ok st2 => insertRecords failAt repId rs st2

/-- The staged state after the report-row INSERT of `store_report`. -/
def stagedDB (db : DB) (r : ReportData) : DB :=
  { db with
    reports := db.reports ++ [mkReportRow db.next_id r],
    next_id := db.next_id + 1 }

/-- Model of `DatabaseManager.store_report` (lines 154–230).  Statement 0 is the
existence check `SELECT`; a hit returns `False` with no writes.  Statement 1
inserts the report row, statements 2… the record/auth rows, and the final
statement index is the `commit`.  All writes are staged: an exception at any
statement reaches the `except` clause, which rolls the transaction back
(discarding the staged writes) and re-raises. -/
def store_report (failAt : Option Nat) (db : DB) (r : ReportData) :
    StoreOutcome × DB :=
  if failAt = some 0 then (.storeError, db)
  else if db.reports.any (fun row => row.report_id = r.report_id) then
    (.alreadyExists, db)
  else if failAt = some 1 then (.storeError, db)
  else
    match insertRecords failAt db.next_id r.records (stagedDB db r, 2) with
    | .error _ => (.storeError, db)
    | .ok (db2, ctr2) =>
      if failAt = some ctr2 then (.storeError, db)
      else (.inserted, db2)

/-- How a `DatabaseManager` call returns to its caller: normally, or by
raising. -/
inductive CallOutcome where
  | completed
  | raised
deriving Repr, DecidableEq

/-- Model of `DatabaseManager.mark_email_processed` (lines 232–247): `INSERT ... ON
CONFLICT (message_id) DO NOTHING`, commit; on any exception, roll back and
LOG ONLY — the `except` clause does not re-raise, so the call always returns
normally.  `failInsert` injects a write failure. -/
def mark_email_processed (failInsert : Bool) (db : DB)
    (message_id subject source : String) : CallOutcome × DB :=
  if failInsert then (.completed, db)
  else if db.processed_emails.any (fun row => row.message_id = message_id) then
    (.completed, db)
  else
    (.completed,
     { db with processed_emails := db.processed_emails ++
        [{ message_id, subject, source }] })

/-- Model of `DatabaseManager.is_email_processed` (lines 249–260): read-only lookup,
no exception handler of its own. -/
def is_email_processed (db : DB) (message_id : String) : Bool :=
  db.processed_emails.any (fun row => row.message_id = message_id)

/-! ## Orchestration -/

/-- One email as the fetch loop sees it: message id (possibly synthetic),
subject, and MIME parts. -/
structure EmailMsg where
  message_id : String
  subject : String
  parts : List Part

/-- The attachment loop of `IMAPFetcher.fetch_reports` (lines 361–374):
skip multipart containers and parts without a `Content-Disposition`; extract;
an extraction failure (`None`) is skipped; parse and store inside a `try`
whose `except` logs and continues with the next attachment, so a parse or
store failure never aborts the siblings.  Returns the updated database and
the number of newly stored reports.  (Store failures are not injected here:
`store_report` runs with `failAt := none`.) -/
def process_parts (db : DB) (parts : List Part) : DB × Nat :=
  parts.foldl
    (fun acc part =>
      if part.content_maintype = "multipart" then acc
      else
        match part.content_disposition with
        | none => acc
        | some _ =>
          match extract_xml_from_attachment part with
          | none => acc
          | some xml_content =>
            match parse_xml_bytes xml_content with
            | .error _ => acc
            | .ok report_data =>
              match store_report none acc.1 report_data with
              | (.inserted, db1) => (db1, acc.2 + 1)
              | (_, db1) => (db1, acc.2))
    (db, 0)

/-- One iteration of the per-email loop of `fetch_reports` (lines 345–377):
skip the email when already processed; otherwise run every attachment through
the loop above, then mark the email processed — unconditionally, whatever
each attachment yielded. -/
def process_email (db : DB) (msg : EmailMsg) : DB × Nat :=
  if is_email_processed db msg.message_id then (db, 0)
  else
    let st := process_parts db msg.parts
    let marked := mark_email_processed false st.1 msg.message_id msg.subject "imap"
    (marked.2, st.2)

/-- Model of `ManualImporter.import_file` (manual_import.py lines 81–97): extract all
XML buffers from the file, then parse and store each inside a `try` whose
`except` logs and continues. -/
def import_file (db : DB) (filepath : String) (content : Bytes) : DB × Nat :=
  (extract_xml_from_file filepath content).foldl
    (fun acc xml_content =>
      match parse_xml_bytes xml_content with
      | .error _ => acc
      | .ok report_data =>
        match store_report none acc.1 report_data with
        | (.inserted, db1) => (db1, acc.2 + 1)
        | (_, db1) => (db1, acc.2))
    (db, 0)

/-! ## Helper observations and concrete test inputs -/

/-- Total number of DKIM auth-result rows a record list carries (reading the
possibly-absent key the way `store_report` does). -/
def dkimCount (rs : List RecordData) : Nat :=
  (rs.map (fun rec => (rec.dkim_auths.getD []).length)).sum

/-- Total number of SPF auth-result rows a record list carries. -/
def spfCount (rs : List RecordData) : Nat :=
  (rs.map (fun rec => (rec.spf_auths.getD []).length)).sum

/-- The `policy_published` child with the given tag, when both exist. -/
def ppFind (root : XML) (tag : String) : Option XML :=
  match root.findTag "policy_published" with
  | none => none
  | some pp => pp.findTag tag

/-- The error of a failed parse, `none` on success (lets error observations
stay decidable even though `ReportData` carries the raw tree). -/
def errorOf {α : Type} : Except ParseError α → Option ParseError
  | .error e => some e
  | .ok _ => none

/-- Children list for an optional leaf element with a fixed text value. -/
def optChild (tag value : String) : Bool → List XML
  | false => []
  | true => [XML.elem tag (some value) []]

/-- Test-input family for the required-field claims: a `feedback` tree where
the org name, report identifier, policy-published domain and policy `p` are
each present (with a canonical value) or absent, and the `date_range` element
is present or absent. -/
def mkReportXML (hasOrg hasRid hasDom hasP withDR : Bool) : XML :=
  .elem "feedback" none
    [.elem "report_metadata" none
      (optChild "org_name" "OrgA" hasOrg ++ optChild "report_id" "abc123" hasRid ++
        (if withDR then
          [XML.elem "date_range" none
            [.elem "begin" (some "1700000000") [],
             .elem "end" (some "1700003600") []]]
         else [])),
     .elem "policy_published" none
      (optChild "domain" "example.com" hasDom ++ optChild "p" "none" hasP)]

/-- Reads `true` exactly when the report-metadata `date_range` element is
reachable-but-absent, or the `report_metadata` element itself is absent. -/
def dateRangeMissing (root : XML) : Bool :=
  match root.findTag "report_metadata" with
  | none => true
  | some rm => (rm.findTag "date_range").isNone

/-- A complete well-formed sample report tree (the §8 end-to-end scenario). -/
def rootOK : XML :=
  .elem "feedback" none
    [.elem "report_metadata" none
      [.elem "org_name" (some "OrgA") [],
       .elem "email" (some "noreply@orga.example") [],
       .elem "report_id" (some "abc123") [],
       .elem "date_range" none
         [.elem "begin" (some "1700000000") [],
          .elem "end" (some "1700003600") []]],
     .elem "policy_published" none
      [.elem "domain" (some "example.com") [],
       .elem "p" (some "none") []],
     .elem "record" none
      [.elem "row" none
        [.elem "source_ip" (some "203.0.113.5") [],
         .elem "count" (some "42") [],
         .elem "policy_evaluated" none
           [.elem "disposition" (some "none") [],
            .elem "dkim" (some "pass") [],
            .elem "spf" (some "pass") []]],
       .elem "identifiers" none
        [.elem "header_from" (some "example.com") []]]]

/-- A second well-formed report tree with a distinct report identifier. -/
def rootOK2 : XML :=
  .elem "feedback" none
    [.elem "report_metadata" none
      [.elem "org_name" (some "OrgB") [],
       .elem "report_id" (some "def456") [],
       .elem "date_range" none
         [.elem "begin" (some "1700100000") [],
          .elem "end" (some "1700103600") []]],
     .elem "policy_published" none
      [.elem "domain" (some "example.org") [],
       .elem "p" (some "reject") []]]

/-- Variant of `rootOK` with a non-numeric `pct` value in `policy_published`. -/
def rootBadPct : XML :=
  .elem "feedback" none
    [.elem "report_metadata" none
      [.elem "org_name" (some "OrgA") [],
       .elem "report_id" (some "abc123") [],
       .elem "date_range" none
         [.elem "begin" (some "1700000000") [],
          .elem "end" (some "1700003600") []]],
     .elem "policy_published" none
      [.elem "domain" (some "example.com") [],
       .elem "p" (some "none") [],
       .elem "pct" (some "abc") []]]

/-- Tree with `rootOK`'s metadata and policy and one `record` element lacking any
`row` child. -/
def rootNoRowRecord : XML :=
  .elem "feedback" none
    [.elem "report_metadata" none
      [.elem "org_name" (some "OrgA") [],
       .elem "report_id" (some "abc123") [],
       .elem "date_range" none
         [.elem "begin" (some "1700000000") [],
          .elem "end" (some "1700003600") []]],
     .elem "policy_published" none
      [.elem "domain" (some "example.com") [],
       .elem "p" (some "none") []],
     .elem "record" none
      [.elem "identifiers" none
        [.elem "header_from" (some "example.com") []]]]

/-- A policy-published block with empty `<sp></sp>` and `<pct></pct>`
elements (present tags, no text). -/
def rootEmptySpPct : XML :=
  .elem "feedback" none
    [.elem "report_metadata" none
      [.elem "org_name" (some "OrgA") [],
       .elem "report_id" (some "abc123") [],
       .elem "date_range" none
         [.elem "begin" (some "1700000000") [],
          .elem "end" (some "1700003600") []]],
     .elem "policy_published" none
      [.elem "domain" (some "example.com") [],
       .elem "p" (some "reject") [],
       .elem "sp" none [],
       .elem "pct" none []]]

/-- A zip payload holding two distinct `.xml` entries. -/
def zipTwo : Bytes :=
  .zipOf [("a.xml", .xmlBytes rootOK), ("b.xml", .xmlBytes rootOK2)]

/-- The two-XML zip as an email attachment part. -/
def zipTwoPart : Part :=
  ⟨some "reports.zip", "application", some "attachment", zipTwo⟩

/-- A corrupt container attachment: named like a zip, opens as garbage. -/
def corruptPart : Part :=
  ⟨some "bad.zip", "application", some "attachment", .garbage⟩

/-- A plain `.xml` attachment carrying `rootOK`. -/
def validPart : Part :=
  ⟨some "good.xml", "application", some "attachment", .xmlBytes rootOK⟩

/-- A `record` element with no `row` child at all. -/
def recNoRowElem : XML :=
  .elem "record" none
    [.elem "identifiers" none
      [.elem "header_from" (some "example.com") []]]

/-- The parse of `rootEmptySpPct`, written out: the empty `sp` and `pct`
elements resolve to the same defaults as absent ones. -/
def emptySpPctReport : ReportData :=
  { org_name := "OrgA", email := "", extra_contact_info := "",
    report_id := "abc123",
    date_range_begin := 1700000000, date_range_end := 1700003600,
    domain := "example.com", adkim := "r", aspf := "r", p := "reject",
    sp := "reject", pct := 100, raw_xml := rootEmptySpPct, records := [] }

/-- A concrete normalized report (the parse of `rootOK`, written out). -/
def sampleReport : ReportData :=
  { org_name := "OrgA", email := "noreply@orga.example",
    extra_contact_info := "", report_id := "abc123",
    date_range_begin := 1700000000, date_range_end := 1700003600,
    domain := "example.com", adkim := "r", aspf := "r", p := "none",
    sp := "none", pct := 100, raw_xml := rootOK,
    records :=
      [{ source_ip := "203.0.113.5", count := 42, disposition := "none",
         dkim_result := "pass", spf_result := "pass",
         header_from := "example.com", envelope_from := "example.com",
         envelope_to := "", dkim_auths := none, spf_auths := none }] }

/-! ## Lemmas: parsing -/

theorem parse_xml_ok_elim {root : XML} {r : ReportData}
    (h : parse_xml root = .ok r) :
    ∃ rm, root.findTag "report_metadata" = some rm ∧
    ∃ b, pyInt (get_text (rm.findTag "date_range") "begin") = some b ∧
    ∃ e, pyInt (get_text (rm.findTag "date_range") "end") = some e ∧
    ∃ n, pyInt (get_text (root.findTag "policy_published") "pct" "100") = some n ∧
    ∃ recs, parse_records (root.findallTag "record") = .ok recs ∧
    r = { org_name := get_text (some rm) "org_name"
          email := get_text (some rm) "email"
          extra_contact_info := get_text (some rm) "extra_contact_info"
          report_id := get_text (some rm) "report_id"
          date_range_begin := b
          date_range_end := e
          domain := get_text (root.findTag "policy_published") "domain"
          adkim := get_text (root.findTag "policy_published") "adkim" "r"
          aspf := get_text (root.findTag "policy_published") "aspf" "r"
          p := get_text (root.findTag "policy_published") "p"
          sp := get_text (root.findTag "policy_published") "sp"
                  (get_text (root.findTag "policy_published") "p")
          pct := n
          raw_xml := root
          records := recs } := by
  cases hrm : root.findTag "report_metadata" with
  | none => simp [parse_xml, hrm, Bind.bind, Except.bind] at h
  | some rm =>
    cases hb : pyInt (get_text (rm.findTag "date_range") "begin") with
    | none => simp [parse_xml, hrm, hb, Bind.bind, Except.bind] at h
    | some b =>
      cases he : pyInt (get_text (rm.findTag "date_range") "end") with
      | none => simp [parse_xml, hrm, hb, he, Bind.bind, Except.bind] at h
      | some e =>
        cases hn : pyInt (get_text (root.findTag "policy_published") "pct" "100") with
        | none => simp [parse_xml, hrm, hb, he, hn, Bind.bind, Except.bind] at h
        | some n =>
          cases hrec : parse_records (root.findallTag "record") with
          | error er =>
            simp [parse_xml, hrm, hb, he, hn, hrec, Bind.bind, Except.bind] at h
          | ok recs =>
            refine ⟨rm, rfl, b, hb, e, he, n, rfl, recs, rfl, ?_⟩
            simp [parse_xml, hrm, hb, he, hn, hrec, Bind.bind, Except.bind,
              pure, Except.pure] at h
            exact h.symm

theorem parse_record_no_row {record : XML}
    (h : record.findTag "row" = none) :
    parse_record record = .error .attributeError := by
  have hc : pyInt (get_text none "count" "0") = some 0 := rfl
  simp [parse_record, h, hc, Bind.bind, Except.bind]

theorem parse_record_ok_source_ip {record : XML} {rd : RecordData}
    (h : parse_record record = .ok rd) :
    rd.source_ip = get_text (record.findTag "row") "source_ip" := by
  cases hc : pyInt (get_text (record.findTag "row") "count" "0") with
  | none => simp [parse_record, hc, Bind.bind, Except.bind] at h
  | some cnt =>
    cases hrow : record.findTag "row" with
    | none =>
      have hc0 : pyInt (get_text none "count" "0") = some 0 := rfl
      simp [parse_record, hc0, hrow, Bind.bind, Except.bind] at h
    | some row =>
      rw [hrow] at hc
      simp only [parse_record, hc, hrow, Bind.bind, Except.bind] at h
      split at h <;>
        · simp only [pure, Except.pure, Except.ok.injEq] at h
          rw [← h]

theorem parse_records_ok_length :
    ∀ {l : List XML} {ds : List RecordData},
      parse_records l = .ok ds → ds.length = l.length := by
  intro l
  induction l with
  | nil => intro ds h; simp [parse_records] at h; simp [← h]
  | cons x xs ih =>
    intro ds h
    cases hx : parse_record x with
    | error e => simp [parse_records, hx, Bind.bind, Except.bind] at h
    | ok d =>
      cases hxs : parse_records xs with
      | error e => simp [parse_records, hx, hxs, Bind.bind, Except.bind] at h
      | ok ds2 =>
        simp [parse_records, hx, hxs, Bind.bind, Except.bind] at h
        subst h
        simp [ih hxs]

/-! ## Lemmas: the store -/

theorem insertDkims_ok_spec {failAt : Option Nat} {recId : Nat} :
    ∀ {ds : List DKIMAuth} {db : DB} {ctr : Nat} {db2 : DB} {c2 : Nat},
      insertDkims failAt recId ds (db, ctr) = .ok (db2, c2) →
      db2.reports = db.reports ∧ db2.records = db.records ∧
      db2.dkim_auth.length = db.dkim_auth.length + ds.length ∧
      db2.spf_auth = db.spf_auth ∧
      db2.processed_emails = db.processed_emails ∧
      db2.next_id = db.next_id := by
  intro ds
  induction ds with
  | nil =>
    intro db ctr db2 c2 h
    simp [insertDkims] at h
    obtain ⟨h1, h2⟩ := h
    subst h1
    simp
  | cons d ds ih =>
    intro db ctr db2 c2 h
    simp only [insertDkims] at h
    split at h
    · cases h
    · have hs := ih h
      simp at hs
      exact ⟨hs.1, hs.2.1, by simp only [List.length_cons]; omega,
             hs.2.2.2.1, hs.2.2.2.2.1, hs.2.2.2.2.2⟩

theorem insertSpfs_ok_spec {failAt : Option Nat} {recId : Nat} :
    ∀ {ss : List SPFAuth} {db : DB} {ctr : Nat} {db2 : DB} {c2 : Nat},
      insertSpfs failAt recId ss (db, ctr) = .ok (db2, c2) →
      db2.reports = db.reports ∧ db2.records = db.records ∧
      db2.dkim_auth = db.dkim_auth ∧
      db2.spf_auth.length = db.spf_auth.length + ss.length ∧
      db2.processed_emails = db.processed_emails ∧
      db2.next_id = db.next_id := by
  intro ss
  induction ss with
  | nil =>
    intro db ctr db2 c2 h
    simp [insertSpfs] at h
    obtain ⟨h1, h2⟩ := h
    subst h1
    simp
  | cons x ss ih =>
    intro db ctr db2 c2 h
    simp only [insertSpfs] at h
    split at h
    · cases h
    · have hs := ih h
      simp at hs
      exact ⟨hs.1, hs.2.1, hs.2.2.1, by simp only [List.length_cons]; omega,
             hs.2.2.2.2.1, hs.2.2.2.2.2⟩

theorem insertDkims_none_ok (recId : Nat) :
    ∀ (ds : List DKIMAuth) (st : DB × Nat),
      ∃ st2, insertDkims none recId ds st = .ok st2 := by
  intro ds
  induction ds with
  | nil => intro st; exact ⟨st, rfl⟩
  | cons d ds ih =>
    intro st
    obtain ⟨db, ctr⟩ := st
    simpa [insertDkims] using ih _

theorem insertSpfs_none_ok (recId : Nat) :
    ∀ (ss : List SPFAuth) (st : DB × Nat),
      ∃ st2, insertSpfs none recId ss st = .ok st2 := by
  intro ss
  induction ss with
  | nil => intro st; exact ⟨st, rfl⟩
  | cons x ss ih =>
    intro st
    obtain ⟨db, ctr⟩ := st
    simpa [insertSpfs] using ih _

theorem insertRecords_none_ok (repId : Nat) :
    ∀ (rs : List RecordData) (st : DB × Nat),
      ∃ st2, insertRecords none repId rs st = .ok st2 := by
  intro rs
  induction rs with
  | nil => intro st; exact ⟨st, rfl⟩
  | cons r rs ih =>
    intro st
    obtain ⟨db, ctr⟩ := st
    obtain ⟨st1, h1⟩ := insertDkims_none_ok db.next_id
      (r.dkim_auths.getD [])
      ({ db with
         records := db.records ++ [mkRecordRow db.next_id repId r],
         next_id := db.next_id + 1 }, ctr + 1)
    obtain ⟨st2, h2⟩ := insertSpfs_none_ok db.next_id
      (r.spf_auths.getD []) st1
    obtain ⟨st3, h3⟩ := ih st2
    exact ⟨st3, by simp [insertRecords, h1, h2, h3]⟩

theorem insertRecords_ok_spec {failAt : Option Nat} {repId : Nat} :
    ∀ {rs : List RecordData} {db : DB} {ctr : Nat} {db2 : DB} {c2 : Nat},
      insertRecords failAt repId rs (db, ctr) = .ok (db2, c2) →
      db2.reports = db.reports ∧
      db2.records.length = db.records.length + rs.length ∧
      db2.dkim_auth.length = db.dkim_auth.length + dkimCount rs ∧
      db2.spf_auth.length = db.spf_auth.length + spfCount rs ∧
      db2.processed_emails = db.processed_emails := by
  intro rs
  induction rs with
  | nil =>
    intro db ctr db2 c2 h
    simp [insertRecords] at h
    obtain ⟨h1, h2⟩ := h
    subst h1
    simp [dkimCount, spfCount]
  | cons r rs ih =>
    intro db ctr db2 c2 h
    simp only [insertRecords] at h
    split at h
    · cases h
    · split at h
      · cases h
      · rename_i st1 hd
        obtain ⟨dbA, cA⟩ := st1
        split at h
        · cases h
        · rename_i st2 hsp
          obtain ⟨dbB, cB⟩ := st2
          have s1 := insertDkims_ok_spec hd
          have s2 := insertSpfs_ok_spec hsp
          have s3 := ih h
          obtain ⟨a1, a2, a3, a4, a5, a6⟩ := s1
          obtain ⟨b1, b2, b3, b4, b5, b6⟩ := s2
          obtain ⟨c1, cc2, c3, c4, c5⟩ := s3
          have a1x : dbA.reports = db.reports := a1
          have a2x : dbA.records = db.records ++ [mkRecordRow db.next_id repId r] := a2
          have a3x : dbA.dkim_auth.length
              = db.dkim_auth.length + (r.dkim_auths.getD []).length := a3
          have a4x : dbA.spf_auth = db.spf_auth := a4
          have a5x : dbA.processed_emails = db.processed_emails := a5
          refine ⟨?_, ?_, ?_, ?_, ?_⟩
          · rw [c1, b1, a1x]
          · rw [cc2, b2, a2x]
            simp only [List.length_append, List.length_cons, List.length_nil]
            omega
          · have hconsd : dkimCount (r :: rs)
                = (r.dkim_auths.getD []).length + dkimCount rs := by
              simp [dkimCount]
            have b3len : dbB.dkim_auth.length = dbA.dkim_auth.length := by rw [b3]
            omega
          · have hconss : spfCount (r :: rs)
                = (r.spf_auths.getD []).length + spfCount rs := by
              simp [spfCount]
            have a4len : dbA.spf_auth.length = db.spf_auth.length := by rw [a4x]
            omega
          · rw [c5, b5, a5x]

theorem store_report_none_fresh {db : DB} {r : ReportData}
    (h : (db.reports.any fun row => row.report_id = r.report_id) = false) :
    (store_report none db r).1 = .inserted ∧
    (store_report none db r).2.reports = db.reports ++ [mkReportRow db.next_id r] ∧
    (store_report none db r).2.processed_emails = db.processed_emails := by
  obtain ⟨st2, hok⟩ := insertRecords_none_ok db.next_id
    r.records (stagedDB db r, 2)
  obtain ⟨db2, c2⟩ := st2
  have hspec := insertRecords_ok_spec hok
  have hrep : db2.reports = db.reports ++ [mkReportRow db.next_id r] := by
    rw [hspec.1]; rfl
  have hpe : db2.processed_emails = db.processed_emails := hspec.2.2.2.2
  simp [store_report, h, hok, hrep, hpe]

theorem store_report_dup {db : DB} {r : ReportData}
    (h : (db.reports.any fun row => row.report_id = r.report_id) = true) :
    store_report none db r = (.alreadyExists, db) := by
  simp [store_report, h]

theorem store_report_error_rollback (failAt : Option Nat) (db : DB)
    (r : ReportData) (h : (store_report failAt db r).1 = .storeError) :
    (store_report failAt db r).2 = db := by
  by_cases h0 : failAt = some 0
  · simp [store_report, h0]
  · cases hdup : (db.reports.any fun row => row.report_id = r.report_id) with
    | true => simp [store_report, h0, hdup] at h
    | false =>
      by_cases h1 : failAt = some 1
      · simp [store_report, h0, hdup, h1]
      · cases hrec : insertRecords failAt db.next_id r.records (stagedDB db r, 2) with
        | error e => simp [store_report, h0, hdup, h1, hrec]
        | ok st =>
          obtain ⟨db2, c2⟩ := st
          by_cases hcf : failAt = some c2
          · subst hcf
            simp [store_report, h0, hdup, h1, hrec]
          · simp [store_report, h0, hdup, h1, hrec, hcf] at h

theorem mark_email_not_present {db : DB} {mid subj src : String}
    (h : is_email_processed db mid = false) :
    mark_email_processed false db mid subj src
      = (.completed,
         { db with processed_emails := db.processed_emails ++ [⟨mid, subj, src⟩] }) := by
  unfold is_email_processed at h
  simp [mark_email_processed, h]

/-! ## Lemmas: policy-published defaulting -/

theorem get_text_ppFind_none {root : XML} {tag dflt : String}
    (h : ppFind root tag = none) :
    get_text (root.findTag "policy_published") tag dflt = dflt := by
  unfold ppFind at h
  cases hpp : root.findTag "policy_published" with
  | none => simp [get_text]
  | some pp =>
    rw [hpp] at h
    have h2 : pp.findTag tag = none := h
    simp [get_text, hpp, h2]

theorem get_text_ppFind_empty {root : XML} {tag dflt : String} {c : XML}
    (h : ppFind root tag = some c) (ht : c.text = none ∨ c.text = some "") :
    get_text (root.findTag "policy_published") tag dflt = dflt := by
  unfold ppFind at h
  cases hpp : root.findTag "policy_published" with
  | none => simp [get_text]
  | some pp =>
    rw [hpp] at h
    have h2 : pp.findTag tag = some c := h
    cases ht with
    | inl ht => simp [get_text, hpp, h2, ht]
    | inr ht => simp [get_text, hpp, h2, ht]

theorem parse_sp_eq_p {root : XML} {r : ReportData}
    (h : parse_xml root = .ok r)
    (hg : get_text (root.findTag "policy_published") "sp"
            (get_text (root.findTag "policy_published") "p")
          = get_text (root.findTag "policy_published") "p") :
    r.sp = r.p := by
  obtain ⟨rm, hrm, b, hb, e, he, n, hn, recs, hrec, hr⟩ := parse_xml_ok_elim h
  subst hr
  exact hg

theorem parse_pct_100 {root : XML} {r : ReportData}
    (h : parse_xml root = .ok r)
    (hg : get_text (root.findTag "policy_published") "pct" "100" = "100") :
    r.pct = 100 := by
  obtain ⟨rm, hrm, b, hb, e, he, n, hn, recs, hrec, hr⟩ := parse_xml_ok_elim h
  subst hr
  rw [hg] at hn
  have h100 : pyInt "100" = some 100 := rfl
  rw [h100] at hn
  simpa using hn.symm

/-! ## Claims -/

/-- Claim C1 — For every normalized report whose identifier is not yet stored,
calling `store_report` twice with the same report identifier returns
`Inserted` (`True`) on the first call and `AlreadyExists` (`False`) on the
second, and the second call performs no mutation: the resulting state is
unchanged, so the number of `reports`, `records`, `dkim_auth` and `spf_auth`
rows is identical before and after the second call. -/
theorem claim_C1_store_report_idempotent (db : DB) (r : ReportData)
    (h : (db.reports.any fun row => row.report_id = r.report_id) = false) :
    (store_report none db r).1 = .inserted ∧
    (store_report none (store_report none db r).2 r).1 = .alreadyExists ∧
    (store_report none (store_report none db r).2 r).2 = (store_report none db r).2 ∧
    (store_report none (store_report none db r).2 r).2.reports.length
        = (store_report none db r).2.reports.length ∧
    (store_report none (store_report none db r).2 r).2.records.length
        = (store_report none db r).2.records.length ∧
    (store_report none (store_report none db r).2 r).2.dkim_auth.length
        = (store_report none db r).2.dkim_auth.length ∧
    (store_report none (store_report none db r).2 r).2.spf_auth.length
        = (store_report none db r).2.spf_auth.length := by
  have hf := store_report_none_fresh h
  have hany : ((store_report none db r).2.reports.any
      fun row => row.report_id = r.report_id) = true := by
    rw [hf.2.1]
    simp [mkReportRow]
  have h2 := store_report_dup hany
  refine ⟨hf.1, ?_, ?_, ?_, ?_, ?_, ?_⟩ <;> rw [h2]

/-- Witness for C1 at the §8 sample report and the empty database. -/
theorem claim_C1_witness :
    ((DB.empty.reports.any fun row => row.report_id = sampleReport.report_id) = false)
    ∧ (store_report none DB.empty sampleReport).1 = .inserted
    ∧ (store_report none (store_report none DB.empty sampleReport).2 sampleReport).1
        = .alreadyExists :=
  ⟨rfl, (claim_C1_store_report_idempotent DB.empty sampleReport rfl).1,
   (claim_C1_store_report_idempotent DB.empty sampleReport rfl).2.1⟩

/-- Claim C4 — `store_report` persists the report row, all record rows and all
per-record DKIM/SPF auth rows as one atomic unit: whichever statement the
failure oracle makes raise, either the call fails with the error surfaced and
the database exactly as before (rollback), or it succeeds and the full
aggregate (1 report row, all record rows, all auth rows) is visible. -/
theorem claim_C4_store_report_atomic (failAt : Option Nat) (db : DB)
    (r : ReportData)
    (h : (db.reports.any fun row => row.report_id = r.report_id) = false) :
    ((store_report failAt db r).1 = .storeError ∧
     (store_report failAt db r).2 = db) ∨
    ((store_report failAt db r).1 = .inserted ∧
     (store_report failAt db r).2.reports.length = db.reports.length + 1 ∧
     (store_report failAt db r).2.records.length
        = db.records.length + r.records.length ∧
     (store_report failAt db r).2.dkim_auth.length
        = db.dkim_auth.length + dkimCount r.records ∧
     (store_report failAt db r).2.spf_auth.length
        = db.spf_auth.length + spfCount r.records) := by
  by_cases h0 : failAt = some 0
  · left; simp [store_report, h0]
  · by_cases h1 : failAt = some 1
    · left; simp [store_report, h, h0, h1]
    · cases hrec : insertRecords failAt db.next_id r.records (stagedDB db r, 2) with
      | error e =>
        left
        simp [store_report, h, h0, h1, hrec]
      | ok st =>
        obtain ⟨db2, c2⟩ := st
        by_cases hc : failAt = some c2
        · left
          subst hc
          simp [store_report, h, h0, h1, hrec]
        · right
          have heq : store_report failAt db r = (.inserted, db2) := by
            simp [store_report, h, h0, h1, hrec, hc]
          have hspec := insertRecords_ok_spec hrec
          have e1 : db2.reports = db.reports ++ [mkReportRow db.next_id r] := by
            rw [hspec.1]; rfl
          have e2 : db2.records.length = db.records.length + r.records.length :=
            hspec.2.1
          have e3 : db2.dkim_auth.length
              = db.dkim_auth.length + dkimCount r.records := hspec.2.2.1
          have e4 : db2.spf_auth.length
              = db.spf_auth.length + spfCount r.records := hspec.2.2.2.1
          rw [heq]
          exact ⟨rfl, by rw [e1]; simp, e2, e3, e4⟩

/-- Witness for C4: failure injected at statement 2 (the first record
INSERT) on the empty database with the sample report. -/
theorem claim_C4_witness :
    ((DB.empty.reports.any fun row => row.report_id = sampleReport.report_id) = false)
    ∧ (((store_report (some 2) DB.empty sampleReport).1 = .storeError ∧
        (store_report (some 2) DB.empty sampleReport).2 = DB.empty) ∨
       ((store_report (some 2) DB.empty sampleReport).1 = .inserted ∧
        (store_report (some 2) DB.empty sampleReport).2.reports.length
           = DB.empty.reports.length + 1 ∧
        (store_report (some 2) DB.empty sampleReport).2.records.length
           = DB.empty.records.length + sampleReport.records.length ∧
        (store_report (some 2) DB.empty sampleReport).2.dkim_auth.length
           = DB.empty.dkim_auth.length + dkimCount sampleReport.records ∧
        (store_report (some 2) DB.empty sampleReport).2.spf_auth.length
           = DB.empty.spf_auth.length + spfCount sampleReport.records)) :=
  ⟨rfl, claim_C4_store_report_atomic (some 2) DB.empty sampleReport rfl⟩

/-- Claim C5, counterexample — the claim says every persistence failure in
every Store operation propagates an error to the caller.  It is false:
`mark_email_processed`'s `except` clause rolls back and logs but does not
re-raise, so a failing INSERT (`failInsert = true`) returns normally
(`completed`), leaving the caller with no error and the row unwritten. -/
theorem claim_C5_counterexample :
    mark_email_processed true DB.empty "msg-1" "DMARC report" "imap"
      = (.completed, DB.empty) := rfl

/-- Claim C5, amended — `store_report` rolls the transaction back on every
propagated failure (the state is exactly the pre-call state whenever the
outcome is the raised error), but `mark_email_processed` swallows its write
failures: under a failing INSERT it rolls back and still returns normally. -/
theorem claim_C5_amended_rollback_propagation :
    (∀ (failAt : Option Nat) (db : DB) (r : ReportData),
      (store_report failAt db r).1 = .storeError →
      (store_report failAt db r).2 = db) ∧
    (∀ (db : DB) (m s src : String),
      mark_email_processed true db m s src = (.completed, db)) :=
  ⟨fun failAt db r h => store_report_error_rollback failAt db r h,
   fun _ _ _ _ => rfl⟩

/-- Witness for the amended C5: the failure at statement 0 both surfaces
and leaves the empty database untouched. -/
theorem claim_C5_amended_witness :
    (store_report (some 0) DB.empty sampleReport).1 = .storeError ∧
    (store_report (some 0) DB.empty sampleReport).2 = DB.empty :=
  ⟨rfl, claim_C5_amended_rollback_propagation.1 (some 0) DB.empty sampleReport rfl⟩

/-- Claim C3, counterexample — the claim says an XML input with the org name
absent makes `parse_xml` fail with `MalformedReportError`.  It is false: the
code has no such error and `_get_text` substitutes the empty string, so the
parse succeeds with `org_name = ""`. -/
theorem claim_C3_counterexample :
    (parse_xml (mkReportXML false true true true true)).toOption.map
      (fun r => r.org_name) = some "" := rfl

/-- Claim C3, amended — only the date-range bounds are effectively required:
with `date_range` reachable-but-absent (or `report_metadata` missing),
`parse_xml` fails (a `ValueError` from `int('')`, or an `AttributeError`,
not a `MalformedReportError`, which does not exist in the code); an absent
report identifier, org name, policy-published domain or policy `p` instead
yields a Report with that field defaulted to the empty string (and `sp`
defaulting to the empty `p`), across every presence combination of the
canonical report family. -/
theorem claim_C3_amended_required_fields :
    (∀ hasOrg hasRid hasDom hasP : Bool,
      (parse_xml (mkReportXML hasOrg hasRid hasDom hasP true)).toOption.map
        (fun r => (r.org_name, r.report_id, r.domain, r.p, r.sp))
      = some ((if hasOrg then "OrgA" else ""), (if hasRid then "abc123" else ""),
              (if hasDom then "example.com" else ""), (if hasP then "none" else ""),
              (if hasP then "none" else ""))) ∧
    (∀ root : XML, dateRangeMissing root = true →
      ∀ r : ReportData, parse_xml root ≠ .ok r) := by
  constructor
  · intro a b c d
    cases a <;> cases b <;> cases c <;> cases d <;> rfl
  · intro root hd r hok
    obtain ⟨rm, hrm, b, hb, -⟩ := parse_xml_ok_elim hok
    unfold dateRangeMissing at hd
    rw [hrm] at hd
    have hd2 : (rm.findTag "date_range").isNone = true := hd
    rw [Option.isNone_iff_eq_none] at hd2
    rw [hd2] at hb
    have hempty : pyInt (get_text none "begin") = none := rfl
    rw [hempty] at hb
    cases hb

/-- Witness for the amended C3: the canonical family member with
`date_range` absent is rejected. -/
theorem claim_C3_amended_witness :
    dateRangeMissing (mkReportXML true true true true false) = true ∧
    parse_xml (mkReportXML true true true true false) ≠ .ok sampleReport :=
  ⟨rfl, claim_C3_amended_required_fields.2 (mkReportXML true true true true false)
      rfl sampleReport⟩

/-- Claim C6 — for every parsed `policy_published` element: an absent `sp`
yields `sp == p`; an absent `adkim`/`aspf` yields `"r"`, the DMARC wire
encoding of the relaxed alignment mode; an absent `pct` yields `100`. -/
theorem claim_C6_policy_defaults (root : XML) (r : ReportData)
    (h : parse_xml root = .ok r) :
    (ppFind root "sp" = none → r.sp = r.p) ∧
    (ppFind root "adkim" = none → r.adkim = "r") ∧
    (ppFind root "aspf" = none → r.aspf = "r") ∧
    (ppFind root "pct" = none → r.pct = 100) := by
  refine ⟨?_, ?_, ?_, ?_⟩
  · intro hsp
    exact parse_sp_eq_p h (get_text_ppFind_none hsp)
  · intro had
    obtain ⟨rm, hrm, b, hb, e, he, n, hn, recs, hrec, hr⟩ := parse_xml_ok_elim h
    subst hr
    exact get_text_ppFind_none had
  · intro has
    obtain ⟨rm, hrm, b, hb, e, he, n, hn, recs, hrec, hr⟩ := parse_xml_ok_elim h
    subst hr
    exact get_text_ppFind_none has
  · intro hp
    exact parse_pct_100 h (get_text_ppFind_none hp)

/-- Witness for C6 at `rootOK`, whose policy-published element carries only
`domain` and `p`. -/
theorem claim_C6_witness :
    sampleReport.sp = sampleReport.p ∧ sampleReport.adkim = "r" ∧
    sampleReport.aspf = "r" ∧ sampleReport.pct = 100 :=
  ⟨(claim_C6_policy_defaults rootOK sampleReport rfl).1 rfl,
   (claim_C6_policy_defaults rootOK sampleReport rfl).2.1 rfl,
   (claim_C6_policy_defaults rootOK sampleReport rfl).2.2.1 rfl,
   (claim_C6_policy_defaults rootOK sampleReport rfl).2.2.2 rfl⟩

/-- Claim C7, counterexample — the claim says a non-numeric `pct` value yields
the default `100` rather than an error.  It is false: `int('abc')` raises
`ValueError`, which `parse_xml`'s handler logs and re-raises. -/
theorem claim_C7_counterexample :
    errorOf (parse_xml rootBadPct) = some .valueError := rfl

/-- Claim C7, amended — `pct` defaults to `100` only when the element is
absent (or its text empty); a present `pct` whose text does not parse as an
integer makes `parse_xml` raise (`ValueError`) instead of defaulting. -/
theorem claim_C7_amended_pct (root : XML) :
    (∀ r : ReportData, parse_xml root = .ok r →
       ppFind root "pct" = none → r.pct = 100) ∧
    (pyInt (get_text (root.findTag "policy_published") "pct" "100") = none →
     ∀ r : ReportData, parse_xml root ≠ .ok r) := by
  constructor
  · intro r hok hp
    exact parse_pct_100 hok (get_text_ppFind_none hp)
  · intro hbad r hok
    obtain ⟨rm, hrm, b, hb, e, he, n, hn, -⟩ := parse_xml_ok_elim hok
    rw [hbad] at hn
    cases hn

/-- Witness for the amended C7: `rootOK` (absent `pct`) parses with 100;
`rootBadPct` (`pct = "abc"`) is rejected. -/
theorem claim_C7_witness :
    sampleReport.pct = 100 ∧ parse_xml rootBadPct ≠ .ok sampleReport :=
  ⟨(claim_C7_amended_pct rootOK).1 sampleReport rfl rfl,
   (claim_C7_amended_pct rootBadPct).2 rfl sampleReport⟩

/-- Claim C8, counterexample — the claim says a record lacking a `row` element
still yields a Record with an empty source IP rather than a parse failure.
It is false: `row.find('policy_evaluated')` is evaluated on `None` and
raises `AttributeError`, failing the whole parse. -/
theorem claim_C8_counterexample :
    errorOf (parse_xml rootNoRowRecord) = some .attributeError := rfl

/-- Claim C8, amended — every `record` element yields exactly one Record when
the parse succeeds; a record whose `row` is present but lacks `source_ip`
yields a Record with an empty source IP; a record lacking the `row` element
entirely makes the parse fail with `AttributeError`. -/
theorem claim_C8_amended_record_extraction :
    (∀ (root : XML) (r : ReportData), parse_xml root = .ok r →
       r.records.length = (root.findallTag "record").length) ∧
    (∀ (record row : XML) (rd : RecordData),
       record.findTag "row" = some row → row.findTag "source_ip" = none →
       parse_record record = .ok rd → rd.source_ip = "") ∧
    (∀ record : XML, record.findTag "row" = none →
       parse_record record = .error .attributeError) := by
  refine ⟨?_, ?_, ?_⟩
  · intro root r hok
    obtain ⟨rm, hrm, b, hb, e, he, n, hn, recs, hrec, hr⟩ := parse_xml_ok_elim hok
    subst hr
    exact parse_records_ok_length hrec
  · intro record row rd hrow hip hok
    have h1 := parse_record_ok_source_ip hok
    rw [hrow] at h1
    simpa [get_text, hip] using h1
  · intro record h
    exact parse_record_no_row h

/-- Witness for the amended C8 at `rootOK` (one record, one Record) and at
a `record` element with no `row` child. -/
theorem claim_C8_witness :
    sampleReport.records.length = (rootOK.findallTag "record").length ∧
    parse_record recNoRowElem = .error .attributeError :=
  ⟨claim_C8_amended_record_extraction.1 rootOK sampleReport rfl,
   claim_C8_amended_record_extraction.2.2 recNoRowElem rfl⟩

/-- Claim C10 — `_get_text` returns the declared default not only when the
child tag is absent but also when the child is present with missing or empty
text; in particular an empty `<sp></sp>` yields `sp == p` and an empty
`<pct></pct>` yields `100`, identical to the absent-tag case. -/
theorem claim_C10_empty_text_defaults :
    (∀ (e : XML) (tag dflt : String), e.findTag tag = none →
       get_text (some e) tag dflt = dflt) ∧
    (∀ (e c : XML) (tag dflt : String), e.findTag tag = some c →
       (c.text = none ∨ c.text = some "") → get_text (some e) tag dflt = dflt) ∧
    (∀ (root : XML) (r : ReportData) (c : XML), parse_xml root = .ok r →
       ppFind root "sp" = some c → (c.text = none ∨ c.text = some "") →
       r.sp = r.p) ∧
    (∀ (root : XML) (r : ReportData) (c : XML), parse_xml root = .ok r →
       ppFind root "pct" = some c → (c.text = none ∨ c.text = some "") →
       r.pct = 100) := by
  refine ⟨?_, ?_, ?_, ?_⟩
  · intro e tag dflt h
    simp [get_text, h]
  · intro e c tag dflt h ht
    cases ht with
    | inl ht => simp [get_text, h, ht]
    | inr ht => simp [get_text, h, ht]
  · intro root r c hok hsp ht
    exact parse_sp_eq_p hok (get_text_ppFind_empty hsp ht)
  · intro root r c hok hp ht
    exact parse_pct_100 hok (get_text_ppFind_empty hp ht)

/-- Witness for C10 at the empty-element variants `<sp></sp>` and
`<pct></pct>` of the sample report. -/
theorem claim_C10_witness :
    get_text (some (XML.elem "policy_published" none [XML.elem "sp" none []]))
      "sp" "none" = "none" ∧
    emptySpPctReport.sp = emptySpPctReport.p ∧ emptySpPctReport.pct = 100 :=
  ⟨claim_C10_empty_text_defaults.2.1
      (XML.elem "policy_published" none [XML.elem "sp" none []])
      (XML.elem "sp" none []) "sp" "none" rfl (Or.inl rfl),
   claim_C10_empty_text_defaults.2.2.1 rootEmptySpPct emptySpPctReport
      (XML.elem "sp" none []) rfl rfl (Or.inl rfl),
   claim_C10_empty_text_defaults.2.2.2 rootEmptySpPct emptySpPctReport
      (XML.elem "pct" none []) rfl rfl (Or.inl rfl)⟩

/-- Claim C2, counterexample — the claim says zip extraction returns the
content of every `.xml` entry and a two-XML zip attachment yields two stored
reports from one email.  It is false for the IMAP path:
`extract_xml_from_attachment` returns inside the entry loop, so only the
first `.xml` entry is extracted and the email yields exactly one stored
report. -/
theorem claim_C2_counterexample :
    extract_xml_from_attachment zipTwoPart = some (Bytes.xmlBytes rootOK) ∧
    (process_email DB.empty ⟨"m2", "s", [zipTwoPart]⟩).2 = 1 ∧
    (process_email DB.empty ⟨"m2", "s", [zipTwoPart]⟩).1.reports.length = 1 :=
  ⟨rfl, rfl, rfl⟩

/-- Claim C2, amended — for a `.zip` attachment the IMAP extractor returns
only the FIRST archive entry whose name ends in `.xml` (`None` when there is
none); the manual importer's `extract_xml_from_file` returns every such
entry, so a zip file with two distinct `*.xml` entries yields two
independently stored reports in batch mode. -/
theorem claim_C2_amended_zip_extraction :
    (∀ (fn mt : String) (cd : Option String) (es : List (String × Bytes)),
       strEndsWith fn ".zip" = true →
       extract_xml_from_attachment ⟨some fn, mt, cd, .zipOf es⟩
         = (es.find? (fun en => strEndsWith en.1 ".xml")).map (fun en => en.2)) ∧
    (∀ (fp : String) (es : List (String × Bytes)),
       strEndsWith fp ".zip" = true →
       extract_xml_from_file fp (.zipOf es)
         = (es.filter (fun en => strEndsWith en.1 ".xml")).map (fun en => en.2)) ∧
    ((import_file DB.empty "reports.zip" zipTwo).2 = 2 ∧
     (import_file DB.empty "reports.zip" zipTwo).1.reports.length = 2) := by
  refine ⟨?_, ?_, rfl, rfl⟩
  · intro fn mt cd es h
    simp only [extract_xml_from_attachment, unzip, h, if_pos]
    cases hf : es.find? (fun en => strEndsWith en.1 ".xml") with
    | none => simp
    | some en => simp
  · intro fp es h
    simp [extract_xml_from_file, unzip, h]

/-- Witness for the amended C2 at the two-entry zip: one buffer from the
IMAP path, both buffers from the manual path. -/
theorem claim_C2_amended_witness :
    extract_xml_from_attachment
      ⟨some "reports.zip", "application", some "attachment",
       .zipOf [("a.xml", .xmlBytes rootOK), ("b.xml", .xmlBytes rootOK2)]⟩
      = some (Bytes.xmlBytes rootOK) ∧
    extract_xml_from_file "reports.zip"
      (.zipOf [("a.xml", .xmlBytes rootOK), ("b.xml", .xmlBytes rootOK2)])
      = [Bytes.xmlBytes rootOK, Bytes.xmlBytes rootOK2] :=
  ⟨(claim_C2_amended_zip_extraction.1 "reports.zip" "application"
      (some "attachment")
      [("a.xml", .xmlBytes rootOK), ("b.xml", .xmlBytes rootOK2)] rfl).trans rfl,
   (claim_C2_amended_zip_extraction.2.1 "reports.zip"
      [("a.xml", .xmlBytes rootOK), ("b.xml", .xmlBytes rootOK2)] rfl).trans rfl⟩

/-- Claim C9 — for an unprocessed email carrying one corrupt container and one
valid report attachment, the live-mode loop stores the valid report, the
corrupt attachment's extraction failure does not abort the sibling, and
after attempting every attachment the email is marked processed. -/
theorem claim_C9_corrupt_attachment_isolation (db : DB)
    (mid subj cfn vfn mt1 mt2 d1 d2 : String) (vx : XML) (rep : ReportData)
    (hproc : is_email_processed db mid = false)
    (hmt1 : ¬ mt1 = "multipart") (hmt2 : ¬ mt2 = "multipart")
    (hczip : strEndsWith cfn ".zip" = true)
    (hvzip : strEndsWith vfn ".zip" = false)
    (hvgz : strEndsWith vfn ".gz" = false)
    (hvxml : strEndsWith vfn ".xml" = true)
    (hparse : parse_xml vx = .ok rep)
    (hfresh : (db.reports.any fun row => row.report_id = rep.report_id) = false) :
    (process_email db ⟨mid, subj,
        [⟨some cfn, mt1, some d1, .garbage⟩,
         ⟨some vfn, mt2, some d2, .xmlBytes vx⟩]⟩).2 = 1 ∧
    ((process_email db ⟨mid, subj,
        [⟨some cfn, mt1, some d1, .garbage⟩,
         ⟨some vfn, mt2, some d2, .xmlBytes vx⟩]⟩).1.reports.any
        fun row => row.report_id = rep.report_id) = true ∧
    (process_email db ⟨mid, subj,
        [⟨some cfn, mt1, some d1, .garbage⟩,
         ⟨some vfn, mt2, some d2, .xmlBytes vx⟩]⟩).1.reports.length
      = db.reports.length + 1 ∧
    is_email_processed (process_email db ⟨mid, subj,
        [⟨some cfn, mt1, some d1, .garbage⟩,
         ⟨some vfn, mt2, some d2, .xmlBytes vx⟩]⟩).1 mid = true := by
  have hextc : extract_xml_from_attachment ⟨some cfn, mt1, some d1, .garbage⟩
      = none := by
    simp [extract_xml_from_attachment, hczip, unzip]
  have hextv : extract_xml_from_attachment ⟨some vfn, mt2, some d2, .xmlBytes vx⟩
      = some (.xmlBytes vx) := by
    simp [extract_xml_from_attachment, hvzip, hvgz, hvxml]
  have hfr := store_report_none_fresh hfresh
  cases hs : store_report none db rep with
  | mk o db1 =>
    have ho : o = .inserted := by
      have := hfr.1
      rw [hs] at this
      exact this
    subst ho
    have hrep1 : db1.reports = db.reports ++ [mkReportRow db.next_id rep] := by
      have := hfr.2.1
      rw [hs] at this
      exact this
    have hpe1 : db1.processed_emails = db.processed_emails := by
      have := hfr.2.2
      rw [hs] at this
      exact this
    have hpp : process_parts db
        [⟨some cfn, mt1, some d1, .garbage⟩,
         ⟨some vfn, mt2, some d2, .xmlBytes vx⟩] = (db1, 1) := by
      simp [process_parts, hmt1, hmt2, hextc, hextv, parse_xml_bytes,
        etFromstring, hparse, hs]
    have hmark : mark_email_processed false db1 mid subj "imap"
        = (.completed,
           { db1 with processed_emails
               := db1.processed_emails ++ [⟨mid, subj, "imap"⟩] }) := by
      apply mark_email_not_present
      unfold is_email_processed at hproc ⊢
      rw [hpe1]
      exact hproc
    have hpe2 : process_email db ⟨mid, subj,
        [⟨some cfn, mt1, some d1, .garbage⟩,
         ⟨some vfn, mt2, some d2, .xmlBytes vx⟩]⟩
        = ({ db1 with processed_emails
              := db1.processed_emails ++ [⟨mid, subj, "imap"⟩] }, 1) := by
      simp [process_email, hproc, hpp, hmark]
    rw [hpe2]
    refine ⟨rfl, ?_, ?_, ?_⟩
    · show (db1.reports.any fun row => row.report_id = rep.report_id) = true
      rw [hrep1]
      simp [mkReportRow]
    · show db1.reports.length = db.reports.length + 1
      rw [hrep1]
      simp
    · simp [is_email_processed]

/-- Witness for C9: a corrupt zip plus a valid XML attachment in one email
over the empty database. -/
theorem claim_C9_witness :
    (process_email DB.empty ⟨"m1", "s", [corruptPart, validPart]⟩).2 = 1 ∧
    is_email_processed
      (process_email DB.empty ⟨"m1", "s", [corruptPart, validPart]⟩).1 "m1"
      = true := by
  have h := claim_C9_corrupt_attachment_isolation DB.empty "m1" "s" "bad.zip"
    "good.xml" "application" "application" "attachment" "attachment" rootOK
    sampleReport rfl (by decide) (by decide) rfl rfl rfl rfl rfl rfl
  exact ⟨h.1, h.2.2.2⟩

end DmarcReport
